import Mathlib

/-!
Verification of the VG-grade classification logic of
`highway_chainage_analysis.py` (highway temperature chainage analysis).

The in-scope logic consists of two pure functions:
  * `determine_vg_grade` — maps a mean temperature to a viscosity-grade label;
  * `get_vg_grade_color` — maps a grade label to a hex color, with a gray default;
together with the column-wise augmentation step of `visualize_highway_chainage`,
which applies both functions to every row of the segments table.

Temperatures are modelled as rationals (the Python code compares a float
against the integer thresholds 30, 38, 45; these comparisons are exact).
-/

/-- Embedding of `determine_vg_grade(mean_temp)`:
an ordered conditional chain over the thresholds 30, 38, 45. -/
def determine_vg_grade (mean_temp : ℚ) : String :=
  if mean_temp < 30 then "VG-10"
  else if mean_temp < 38 then "VG-20"
  else if mean_temp < 45 then "VG-30"
  else if mean_temp > 45 then "VG-40"
  else "VG-50"

/-- Embedding of `get_vg_grade_color(vg_grade)`:
a fixed dictionary lookup with default `"#7f7f7f"`.
Python's `dict.get` compares keys by exact string equality. -/
def get_vg_grade_color (vg_grade : String) : String :=
  if vg_grade = "VG-10" then "#1f77b4"
  else if vg_grade = "VG-20" then "#ff7f0e"
  else if vg_grade = "VG-30" then "#2ca02c"
  else if vg_grade = "VG-40" then "#d62728"
  else if vg_grade = "VG-50" then "#9467bd"
  else "#7f7f7f"

/-- A row of the `<name>_segments_chainage.csv` table, before augmentation. -/
structure Segment where
  start_km : ℚ
  end_km : ℚ
  mean_temp : ℚ
deriving DecidableEq, Repr

/-- A segment row after the augmentation step of `visualize_highway_chainage`
has added the `vg_grade` and `color` columns. -/
structure AugSegment where
  start_km : ℚ
  end_km : ℚ
  mean_temp : ℚ
  vg_grade : String
  color : String
deriving DecidableEq, Repr

/-- One row of the augmentation step:
`segments_df['vg_grade'] = segments_df['mean_temp'].apply(determine_vg_grade)`
followed by
`segments_df['color'] = segments_df['vg_grade'].apply(get_vg_grade_color)`. -/
def augmentSegment (s : Segment) : AugSegment :=
  { start_km := s.start_km
    end_km := s.end_km
    mean_temp := s.mean_temp
    vg_grade := determine_vg_grade s.mean_temp
    color := get_vg_grade_color (determine_vg_grade s.mean_temp) }

/-- The augmentation step of `visualize_highway_chainage` applied to the whole
segments table (`.apply` maps the pure function over every row). -/
def augmentSegments (segs : List Segment) : List AugSegment :=
  segs.map augmentSegment

/-- The spec's reference decision table for the classifier, written exactly as
the spec states it (ordered branches, first match wins):
t < 30 → VG-10; 30 ≤ t < 38 → VG-20; 38 ≤ t < 45 → VG-30; t > 45 → VG-40;
otherwise → VG-50. -/
def spec_grade (t : ℚ) : String :=
  if t < 30 then "VG-10"
  else if 30 ≤ t ∧ t < 38 then "VG-20"
  else if 38 ≤ t ∧ t < 45 then "VG-30"
  else if t > 45 then "VG-40"
  else "VG-50"

/-- Helper: the classifier always returns one of the five grade labels. -/
lemma gradeCases (t : ℚ) :
    determine_vg_grade t = "VG-10" ∨ determine_vg_grade t = "VG-20" ∨
    determine_vg_grade t = "VG-30" ∨ determine_vg_grade t = "VG-40" ∨
    determine_vg_grade t = "VG-50" := by
  unfold determine_vg_grade
  split_ifs <;> simp

/-- C1: the grade classifier equals the spec's piecewise reference definition
for every temperature. -/
theorem determine_vg_grade_eq_spec (t : ℚ) :
    determine_vg_grade t = spec_grade t := by
  unfold determine_vg_grade spec_grade
  rcases lt_or_le t 30 with h1 | h1
  · simp [h1]
  · rcases lt_or_le t 38 with h2 | h2
    · simp [not_lt.mpr h1, h1, h2]
    · rcases lt_or_le t 45 with h3 | h3
      · simp [not_lt.mpr h1, not_lt.mpr h2, h2, h3]
      · rcases lt_or_le 45 t with h4 | h4
        · simp [not_lt.mpr h1, not_lt.mpr h2, not_lt.mpr h3, gt_iff_lt, h4]
        · simp [not_lt.mpr h1, not_lt.mpr h2, not_lt.mpr h3, gt_iff_lt,
            not_lt.mpr h4]

/-- C2: the boundary input 45 falls through to the catch-all branch and
is classified VG-50. -/
theorem determine_vg_grade_at_45 : determine_vg_grade 45 = "VG-50" := by
  unfold determine_vg_grade
  norm_num

/-- C3: the colorizer returns the fixed table color for each of the five
known grade labels. -/
theorem get_vg_grade_color_table :
    get_vg_grade_color "VG-10" = "#1f77b4" ∧
    get_vg_grade_color "VG-20" = "#ff7f0e" ∧
    get_vg_grade_color "VG-30" = "#2ca02c" ∧
    get_vg_grade_color "VG-40" = "#d62728" ∧
    get_vg_grade_color "VG-50" = "#9467bd" := by
  decide

/-- C4: every string outside the five known grade labels is mapped to the
default gray color; the colorizer is total over strings. -/
theorem get_vg_grade_color_default (s : String)
    (h : s ∉ ["VG-10", "VG-20", "VG-30", "VG-40", "VG-50"]) :
    get_vg_grade_color s = "#7f7f7f" := by
  simp only [List.mem_cons, List.not_mem_nil, or_false, not_or] at h
  obtain ⟨h1, h2, h3, h4, h5⟩ := h
  unfold get_vg_grade_color
  rw [if_neg h1, if_neg h2, if_neg h3, if_neg h4, if_neg h5]

/-- Witness for C4 at the concrete unrecognized label `"unknown"`. -/
theorem get_vg_grade_color_default_witness :
    "unknown" ∉ ["VG-10", "VG-20", "VG-30", "VG-40", "VG-50"] ∧
    get_vg_grade_color "unknown" = "#7f7f7f" :=
  ⟨by decide, get_vg_grade_color_default "unknown" (by decide)⟩

/-- C5: the composed pipeline matches the spec's scenario table at
t = 25, 35, 40, 50, 45 and 44.999. -/
theorem pipeline_scenarios :
    (determine_vg_grade 25 = "VG-10" ∧
      get_vg_grade_color (determine_vg_grade 25) = "#1f77b4") ∧
    (determine_vg_grade 35 = "VG-20" ∧
      get_vg_grade_color (determine_vg_grade 35) = "#ff7f0e") ∧
    (determine_vg_grade 40 = "VG-30" ∧
      get_vg_grade_color (determine_vg_grade 40) = "#2ca02c") ∧
    (determine_vg_grade 50 = "VG-40" ∧
      get_vg_grade_color (determine_vg_grade 50) = "#d62728") ∧
    (determine_vg_grade 45 = "VG-50" ∧
      get_vg_grade_color (determine_vg_grade 45) = "#9467bd") ∧
    (determine_vg_grade (44999/1000 : ℚ) = "VG-30" ∧
      get_vg_grade_color (determine_vg_grade (44999/1000 : ℚ)) = "#2ca02c") := by
  have g1 : determine_vg_grade 25 = "VG-10" := by norm_num [determine_vg_grade]
  have g2 : determine_vg_grade 35 = "VG-20" := by norm_num [determine_vg_grade]
  have g3 : determine_vg_grade 40 = "VG-30" := by norm_num [determine_vg_grade]
  have g4 : determine_vg_grade 50 = "VG-40" := by norm_num [determine_vg_grade]
  have g5 : determine_vg_grade 45 = "VG-50" := by norm_num [determine_vg_grade]
  have g6 : determine_vg_grade (44999/1000 : ℚ) = "VG-30" := by
    norm_num [determine_vg_grade]
  exact ⟨⟨g1, by rw [g1]; decide⟩, ⟨g2, by rw [g2]; decide⟩,
    ⟨g3, by rw [g3]; decide⟩, ⟨g4, by rw [g4]; decide⟩,
    ⟨g5, by rw [g5]; decide⟩, ⟨g6, by rw [g6]; decide⟩⟩

/-- C6: the classifier is total and its range is the closed enumeration of
the five grade labels: every temperature is assigned exactly one of them. -/
theorem determine_vg_grade_range (t : ℚ) :
    determine_vg_grade t = "VG-10" ∨ determine_vg_grade t = "VG-20" ∨
    determine_vg_grade t = "VG-30" ∨ determine_vg_grade t = "VG-40" ∨
    determine_vg_grade t = "VG-50" :=
  gradeCases t

/-- C7: per-row independence of the augmentation step: row i's grade and
color depend only on row i's mean temperature, and mapping over the table
equals applying the augmentation element-wise. -/
theorem augment_row_independence (l1 l2 : List Segment) (i : Nat)
    (hrow : (l1[i]?).map Segment.mean_temp = (l2[i]?).map Segment.mean_temp) :
    ((augmentSegments l1)[i]?).map AugSegment.vg_grade =
      ((augmentSegments l2)[i]?).map AugSegment.vg_grade ∧
    ((augmentSegments l1)[i]?).map AugSegment.color =
      ((augmentSegments l2)[i]?).map AugSegment.color ∧
    (augmentSegments l1)[i]? = (l1[i]?).map augmentSegment := by
  have e1 : (augmentSegments l1)[i]? = (l1[i]?).map augmentSegment := by
    simp [augmentSegments]
  have e2 : (augmentSegments l2)[i]? = (l2[i]?).map augmentSegment := by
    simp [augmentSegments]
  refine ⟨?_, ?_, e1⟩ <;> rw [e1, e2] <;>
    cases hx : l1[i]? with
    | none =>
        rw [hx] at hrow
        cases hy : l2[i]? with
        | none => rfl
        | some s2 => rw [hy] at hrow; simp at hrow
    | some s1 =>
        rw [hx] at hrow
        cases hy : l2[i]? with
        | none => rw [hy] at hrow; simp at hrow
        | some s2 =>
            rw [hy] at hrow
            have hm : s1.mean_temp = s2.mean_temp := by simpa using hrow
            simp [augmentSegment, hm]

/-- Witness for C7: two concrete tables that agree on row 0 but differ in
row 1's mean temperature yield the same grade and color at row 0. -/
theorem augment_row_independence_witness :
    (([⟨0, 1, 25⟩, ⟨1, 2, 50⟩] : List Segment)[0]?).map Segment.mean_temp =
      (([⟨0, 1, 25⟩, ⟨1, 2, 10⟩] : List Segment)[0]?).map Segment.mean_temp ∧
    ((augmentSegments [⟨0, 1, 25⟩, ⟨1, 2, 50⟩])[0]?).map AugSegment.vg_grade =
      ((augmentSegments [⟨0, 1, 25⟩, ⟨1, 2, 10⟩])[0]?).map AugSegment.vg_grade :=
  ⟨by decide,
    (augment_row_independence [⟨0, 1, 25⟩, ⟨1, 2, 50⟩]
      [⟨0, 1, 25⟩, ⟨1, 2, 10⟩] 0 (by decide)).1⟩

/-- C8: frame condition of the augmentation step: no rows are added or
removed, and the start_km, end_km and mean_temp columns of every row are
unchanged. -/
theorem augment_frame (l : List Segment) (i : Nat) :
    (augmentSegments l).length = l.length ∧
    ((augmentSegments l)[i]?).map AugSegment.start_km =
      (l[i]?).map Segment.start_km ∧
    ((augmentSegments l)[i]?).map AugSegment.end_km =
      (l[i]?).map Segment.end_km ∧
    ((augmentSegments l)[i]?).map AugSegment.mean_temp =
      (l[i]?).map Segment.mean_temp := by
  refine ⟨by simp [augmentSegments], ?_, ?_, ?_⟩ <;>
    · cases hx : l[i]? with
      | none => simp [augmentSegments, hx]
      | some s => simp [augmentSegments, hx, augmentSegment]

/-- Helper: the color assigned to each of the five grade labels. -/
lemma colorOfGrade (g : String)
    (h : g = "VG-10" ∨ g = "VG-20" ∨ g = "VG-30" ∨ g = "VG-40" ∨ g = "VG-50") :
    get_vg_grade_color g = "#1f77b4" ∨ get_vg_grade_color g = "#ff7f0e" ∨
    get_vg_grade_color g = "#2ca02c" ∨ get_vg_grade_color g = "#d62728" ∨
    get_vg_grade_color g = "#9467bd" := by
  rcases h with h | h | h | h | h <;> rw [h] <;> decide

/-- C9: the composition of classifier and colorizer never hits the gray
fallback: its value is always one of the five table colors. -/
theorem pipeline_no_fallback (t : ℚ) :
    (get_vg_grade_color (determine_vg_grade t) = "#1f77b4" ∨
     get_vg_grade_color (determine_vg_grade t) = "#ff7f0e" ∨
     get_vg_grade_color (determine_vg_grade t) = "#2ca02c" ∨
     get_vg_grade_color (determine_vg_grade t) = "#d62728" ∨
     get_vg_grade_color (determine_vg_grade t) = "#9467bd") ∧
    get_vg_grade_color (determine_vg_grade t) ≠ "#7f7f7f" := by
  rcases gradeCases t with h | h | h | h | h <;> rw [h] <;> exact ⟨by decide, by decide⟩

/-- C10: the colorizer's lookup is an exact string match: the variants
"vg-10", "VG-10 " and "VG10" of a known label are unrecognized and map to
the default gray, and in general any string differing from all five exact
labels maps to the default gray. -/
theorem colorizer_exact_match :
    get_vg_grade_color "vg-10" = "#7f7f7f" ∧
    get_vg_grade_color "VG-10 " = "#7f7f7f" ∧
    get_vg_grade_color "VG10" = "#7f7f7f" ∧
    ∀ s : String, s ≠ "VG-10" → s ≠ "VG-20" → s ≠ "VG-30" → s ≠ "VG-40" →
      s ≠ "VG-50" → get_vg_grade_color s = "#7f7f7f" := by
  refine ⟨by decide, by decide, by decide, ?_⟩
  intro s h1 h2 h3 h4 h5
  unfold get_vg_grade_color
  rw [if_neg h1, if_neg h2, if_neg h3, if_neg h4, if_neg h5]

/-- Witness for C10 at the concrete variant label `"vg-10"`. -/
theorem colorizer_exact_match_witness :
    ("vg-10" : String) ≠ "VG-10" ∧ get_vg_grade_color "vg-10" = "#7f7f7f" :=
  ⟨by decide, colorizer_exact_match.2.2.2 "vg-10" (by decide) (by decide)
    (by decide) (by decide) (by decide)⟩
